import Mathlib

/-!
Verification development for the hypeAI trading-agent repository.

The decision pipeline of `src/agent/advanced_decision_maker.py`,
`src/agent/decision_maker.py`, `src/agent/allocation_maker.py`,
`src/indicators/quant_indicator_calculator.py` and
`src/trading/hyperliquid_api.py` is shallowly embedded here.

Python floats are modelled as `ℚ` wherever the code only performs field
arithmetic and comparisons, and as `ℝ` for the computations that involve
square roots or logarithms (standard deviation, Bollinger bands, the Hurst
exponent).  Mutable dictionaries become structures, dictionary keys that may
be absent become `Option` fields, and Python exceptions become `Except`
values or explicit guard branches.
-/

namespace HypeAI

/-- Final trading decision, the `'BUY'` / `'SELL'` / `'HOLD'` strings. -/
inductive Decision where
  | BUY | SELL | HOLD
deriving DecidableEq, Repr

/-- Decision strength label. -/
inductive Strength where
  | STRONG | WEAK | NEUTRAL | FALLBACK
deriving DecidableEq, Repr

/-- Market regime string returned by `MarketRegimeDetector.detect_regime`;
`unknown` only appears in the error-path decision record. -/
inductive Regime where
  | trending | ranging | volatile | unknown
deriving DecidableEq, Repr

/-- The indicator dictionary returned by
`AdvancedTradingAlgorithm.calculate_advanced_indicators` (source lines
145-169).  Every key of that dictionary is a field here; the `macd` and
`bollinger_bands` sub-dictionaries are flattened.  The dictionary carries no
`ema`, `sma` or `volatility_history` keys, so consumers that read those keys
through `.get` always receive the stated defaults (see the signal
functions below). -/
structure IndicatorsDict where
  rsi : ℚ
  macd_value : ℚ
  macd_signal : ℚ
  macd_histogram : ℚ
  cci : ℚ
  bb_upper : ℚ
  bb_middle : ℚ
  bb_lower : ℚ
  atr : ℚ
  volatility : ℚ
  correlation : ℚ
  skewness : ℚ
  obv : ℚ
  volume_sma_ratio : ℚ
  price_position : ℚ
  roc : ℚ
  hurst_exponent : ℚ
  current_price : ℚ
  returns : ℚ
deriving DecidableEq, Repr

/-- Embedding of `MarketRegimeDetector.detect_regime` (source lines 516-543).  The local
`rsi_variability` of line 523 is computed and never used, exactly as in the
source. -/
def detect_regime (ind : IndicatorsDict) : Regime :=
  let _rsi_variability := |ind.rsi - 50| / 50
  let is_high_vol := ind.volatility > 5/100 * ind.current_price
  let is_trending := ind.hurst_exponent > 6/10
  let is_mean_reverting := ind.hurst_exponent < 4/10
  if is_high_vol then .volatile
  else if is_trending then .trending
  else if is_mean_reverting then .ranging
  else if ind.atr > 2/100 * ind.current_price then .trending
  else .ranging

/-- Regime classification as worded by the specification §4.2: five
priority-ordered rules, first match winning. -/
def regimeSpec (ind : IndicatorsDict) : Regime :=
  if ind.volatility > 5/100 * ind.current_price then .volatile
  else if ind.hurst_exponent > 6/10 then .trending
  else if ind.hurst_exponent < 4/10 then .ranging
  else if ind.atr > 2/100 * ind.current_price then .trending
  else .ranging

/-- A concrete indicator set with `volatility = 0.06 × current_price` and
`hurst = 0.8`, used by the regime-priority claim. -/
def volatileTrendyInd : IndicatorsDict :=
  { rsi := 50, macd_value := 0, macd_signal := 0, macd_histogram := 0
    cci := 0, bb_upper := 102, bb_middle := 100, bb_lower := 98
    atr := 0, volatility := 6, correlation := 0, skewness := 0
    obv := 0, volume_sma_ratio := 1, price_position := 1/2, roc := 0
    hurst_exponent := 8/10, current_price := 100, returns := 0 }

/-- Embedding of `AdvancedRiskManager.__init__`: maximum position fraction. -/
def max_position_size : ℚ := 1/10

/-- Embedding of `AdvancedRiskManager.__init__`: maximum total-risk fraction. -/
def max_total_risk : ℚ := 1/4

/-- Embedding of `AdvancedRiskManager.__init__`: fraction of the Kelly recommendation. -/
def kelly_fraction : ℚ := 1/4

/-- Embedding of `AdvancedRiskManager._estimate_win_rate` (source lines 475-508). -/
def estimate_win_rate (ind : IndicatorsDict) (regime : Regime) : ℚ :=
  let base0 : ℚ := 55/100
  let base1 :=
    if 30 ≤ ind.rsi ∧ ind.rsi ≤ 70 then base0 - 5/100
    else if ind.rsi < 30 ∨ ind.rsi > 70 then base0 + 5/100
    else base0
  let base2 :=
    if |ind.roc| > 3/100 then
      (if ind.roc > 0 then base1 + 3/100 else base1 + 3/100)
    else base1
  let base3 := if ind.volatility > 5/100 then base2 - 5/100 else base2
  let base4 :=
    if regime = .volatile then base3 - 5/100
    else if regime = .trending then base3 + 2/100
    else base3
  max (45/100) (min (65/100) base4)

/-- The `position_size` fraction computed inside
`AdvancedRiskManager.calculate_position_size` (source lines 443-469), i.e.
the per-position fraction of portfolio value before the dollar conversion
and before the total-risk dollar cap of line 473. -/
def position_fraction (ind : IndicatorsDict) (regime : Regime) : ℚ :=
  let win_rate := estimate_win_rate ind regime
  let avg_win : ℚ := 2/100
  let avg_loss : ℚ := 15/1000
  -- avg_loss is the positive constant 0.015, so the `avg_loss > 0` branch
  -- of lines 454-459 is always taken.
  let b := avg_win / avg_loss
  let kelly0 := (b * win_rate - (1 - win_rate)) / b
  let kelly1 := max 0 (min max_position_size kelly0)
  let kelly2 :=
    if regime = .volatile then kelly1 * 7/10
    else if regime = .trending then kelly1 * 12/10
    else kelly1
  min max_position_size (kelly2 * kelly_fraction)

/-- Embedding of `AdvancedRiskManager.calculate_position_size` (source lines 443-473):
dollar amount, capped by the total-risk ceiling.  The `asset` argument is
unused in the source as well. -/
def calculate_position_size (asset : String) (ind : IndicatorsDict)
    (portfolio_value : ℚ) (regime : Regime) : ℚ :=
  let _ := asset
  let dollar_amount := portfolio_value * position_fraction ind regime
  min dollar_amount (portfolio_value * max_total_risk)

/-- The combined-signal thresholding of `make_advanced_trading_decision`
(source lines 566-580). -/
def decideFromSignal (combined : ℚ) : Decision × Strength :=
  if combined > 3/10 then (.BUY, .STRONG)
  else if combined > 1/10 then (.BUY, .WEAK)
  else if combined < -(3/10) then (.SELL, .STRONG)
  else if combined < -(1/10) then (.SELL, .WEAK)
  else (.HOLD, .NEUTRAL)

/-- Rank of a decision/strength pair on the SELL→BUY axis, used to state
monotonicity of the thresholding: SELL/STRONG < SELL/WEAK < HOLD/NEUTRAL <
BUY/WEAK < BUY/STRONG. -/
def decisionRank : Decision × Strength → ℕ
  | (.SELL, .STRONG) => 0
  | (.SELL, _) => 1
  | (.HOLD, _) => 2
  | (.BUY, .STRONG) => 4
  | (.BUY, _) => 3

/-- Embedding of `AdvancedTradingAlgorithm._calculate_trend_signal` (source lines
274-304).  The advanced-indicator dictionary carries no `ema`/`sma` keys, so
`indicators.get('ema', current_price*0.99)` and
`indicators.get('sma', current_price)` always yield their defaults. -/
def calculate_trend_signal (ind : IndicatorsDict) : ℚ :=
  let ema := ind.current_price * 99/100
  let sma := ind.current_price
  let s0 : ℚ := 0
  let s1 :=
    if ind.current_price > ema ∧ ema > sma then s0 + 1/2
    else if ind.current_price < ema ∧ ema < sma then s0 - 1/2
    else s0
  let s2 :=
    if ind.macd_value > ind.macd_signal then s1 + 3/10
    else if ind.macd_value < ind.macd_signal then s1 - 3/10
    else s1
  if 30 < ind.rsi ∧ ind.rsi < 70 then s2 * 12/10
  else if ind.rsi > 70 then s2 * 8/10
  else if ind.rsi < 30 then s2 * 8/10
  else s2

/-- The inline `bb_position` ratio of
`AdvancedTradingAlgorithm._calculate_mean_reversion_signal` (source line
314): the fractional position of the price between the bands, 0.5 when the
band width is zero. -/
def mrBbPosition (ind : IndicatorsDict) : ℚ :=
  if ind.bb_upper - ind.bb_lower ≠ 0 then
    (ind.current_price - ind.bb_lower) / (ind.bb_upper - ind.bb_lower)
  else 1/2

/-- Embedding of `AdvancedTradingAlgorithm._calculate_mean_reversion_signal` (source
lines 306-336). -/
def calculate_mean_reversion_signal (ind : IndicatorsDict) : ℚ :=
  let bb_position := mrBbPosition ind
  let s0 : ℚ := 0
  let s1 :=
    if ind.rsi < 30 then s0 + 8/10
    else if ind.rsi < 40 then s0 + 1/2
    else if ind.rsi > 70 then s0 - 8/10
    else if ind.rsi > 60 then s0 - 1/2
    else s0
  if bb_position < 2/10 then s1 + 6/10
  else if bb_position < 3/10 then s1 + 4/10
  else if bb_position > 8/10 then s1 - 6/10
  else if bb_position > 7/10 then s1 - 4/10
  else s1

/-- Embedding of `AdvancedTradingAlgorithm._calculate_momentum_signal` (source lines
338-374). -/
def calculate_momentum_signal (ind : IndicatorsDict) : ℚ :=
  let s0 : ℚ := 0
  let s1 :=
    if ind.roc > 0 then s0 + 4/10 * min (ind.roc * 10) 1
    else if ind.roc < 0 then s0 - 4/10 * min (|ind.roc| * 10) 1
    else s0
  let s2 :=
    if ind.macd_histogram > 0 then s1 + 3/10
    else if ind.macd_histogram < 0 then s1 - 3/10
    else s1
  let s3 :=
    if ind.cci > 100 then s2 + 3/10
    else if ind.cci < -100 then s2 - 3/10
    else if ind.cci > 0 then s2 + 1/10
    else if ind.cci < 0 then s2 - 1/10
    else s2
  if ind.volume_sma_ratio > 12/10 then s3 * 12/10
  else if ind.volume_sma_ratio < 8/10 then s3 * 8/10
  else s3

/-- Embedding of `AdvancedTradingAlgorithm._calculate_volatility_signal` (source lines
376-405).  The dictionary carries no `volatility_history` key, so
`np.mean(indicators.get('volatility_history', [volatility]))` is the
volatility itself; the breakout condition `volatility > volatility * 1.5`
then only fires for negative volatility inputs. -/
def calculate_volatility_signal (ind : IndicatorsDict) : ℚ :=
  let vol_hist_mean := ind.volatility
  let s0 : ℚ := 0
  let s1 :=
    if ind.hurst_exponent > 6/10 then s0 + 2/10
    else if ind.hurst_exponent < 4/10 then s0 - 2/10
    else s0
  let s2 :=
    if ind.volatility > vol_hist_mean * 15/10 then
      s1 + 1/10 * (ind.volatility / vol_hist_mean)
    else s1
  if ind.skewness > 1/2 then s2 + 1/10
  else if ind.skewness < -(1/2) then s2 - 1/10
  else s2

/-- Embedding of `AdvancedTradingAlgorithm._adjust_signals_for_regime` (source lines
407-430). -/
def adjust_signals_for_regime (trend mean_rev momentum vol : ℚ)
    (regime : Regime) : ℚ :=
  let tw : ℚ := if regime = .trending then 12/10
    else if regime = .volatile then 8/10 else 8/10
  let mw : ℚ := if regime = .trending then 8/10
    else if regime = .volatile then 6/10 else 12/10
  (trend * tw + mean_rev * mw + momentum * 1 + vol * 1) / 4

/-- The signal bundle returned by
`AdvancedTradingAlgorithm.generate_advanced_signals` (source lines
219-272). -/
structure SignalBundle where
  combined_signal : ℚ
  position_size : ℚ
  regime : Regime
  confidence : ℚ
deriving Repr

/-- Embedding of `AdvancedTradingAlgorithm.generate_advanced_signals` (source lines
219-272): the four signals, the regime term, the regime-dependent weighted
combination, position sizing and `confidence = |combined|`. -/
def generate_advanced_signals (ind : IndicatorsDict) (asset : String)
    (portfolio_value : ℚ) : SignalBundle :=
  let trend := calculate_trend_signal ind
  let mean_rev := calculate_mean_reversion_signal ind
  let momentum := calculate_momentum_signal ind
  let vol := calculate_volatility_signal ind
  let regime := detect_regime ind
  let regime_sig := adjust_signals_for_regime trend mean_rev momentum vol regime
  let position_size := calculate_position_size asset ind portfolio_value regime
  let combined :=
    if regime = .trending then
      35/100 * trend + 25/100 * momentum + 20/100 * regime_sig + 20/100 * vol
    else if regime = .volatile then
      30/100 * mean_rev + 25/100 * vol + 25/100 * regime_sig + 20/100 * momentum
    else
      25/100 * trend + 25/100 * mean_rev + 25/100 * momentum + 25/100 * vol
  { combined_signal := combined, position_size := position_size
    regime := regime, confidence := |combined| }

/-- Python truthiness coalescing `x or d` on a number already extracted from
a dictionary: a zero value is falsy and is replaced by the default. -/
def pyOr (x d : ℚ) : ℚ := if x = 0 then d else x

/-- Python `dict.get(key, d) or d`: a missing key yields the default, and a
present but zero value is falsy and also yields the default. -/
def pyGetOr (o : Option ℚ) (d : ℚ) : ℚ := pyOr (o.getD d) d

/-- The `macd` sub-dictionary consumed by `quant_based_decision`. -/
structure MacdDict where
  value : ℚ
  signal : ℚ
  histogram : ℚ
deriving DecidableEq, Repr

/-- The `bollinger_bands` sub-dictionary consumed by
`quant_based_decision`. -/
structure BbDict where
  upper : ℚ
  middle : ℚ
  lower : ℚ
deriving DecidableEq, Repr

/-- The `stochastic` sub-dictionary consumed by `quant_based_decision`. -/
structure StochDict where
  k : ℚ
  d : ℚ
deriving DecidableEq, Repr

/-- The duck-typed indicator dictionary read by `quant_based_decision` and
`simple_technical_decision` in `src/agent/decision_maker.py`.  Every key
those functions access appears as an `Option` field; `none` models a key
that is absent from the dictionary the caller built. -/
structure QbdDict where
  rsi : Option ℚ
  macd : Option MacdDict
  ema : Option ℚ
  sma : Option ℚ
  bollinger_bands : Option BbDict
  current_price : Option ℚ
  bb_position : Option ℚ
  bb_width : Option ℚ
  stochastic : Option StochDict
  volume : Option ℚ
deriving DecidableEq, Repr

/-- Embedding of `simple_technical_decision` (decision_maker.py lines 254-265): the
RSI-only fallback rule. -/
def simple_technical_decision (d : QbdDict) : Decision :=
  let rsi := pyGetOr d.rsi 50
  if rsi < 30 then .BUY
  else if rsi > 70 then .SELL
  else .HOLD

/-- Embedding of `quant_based_decision` (decision_maker.py lines 86-251).  The only
statements inside its `try` block that can raise on numeric inputs are the
two divisions by `current_price` (trend strength and volatility); a zero
price raises `ZeroDivisionError`, which the function's own handler turns
into `simple_technical_decision`.  All other arithmetic is total. -/
def quant_based_decision (d : QbdDict) : Decision :=
  let rsi := pyGetOr d.rsi 50
  let m := d.macd.getD ⟨0, 0, 0⟩
  let macd_value := pyOr m.value 0
  let macd_signal := pyOr m.signal 0
  let macd_histogram := pyOr m.histogram 0
  let ema := pyGetOr d.ema 0
  let sma := pyGetOr d.sma 0
  let bb_data := d.bollinger_bands.getD ⟨0, 0, 0⟩
  let current_price := pyGetOr d.current_price 0
  let bb_position := pyGetOr d.bb_position (1/2)
  let bb_width := pyGetOr d.bb_width 0
  let sd := d.stochastic.getD ⟨50, 50⟩
  let stoch_k := pyOr sd.k 50
  let stoch_d := pyOr sd.d 50
  let volume := pyGetOr d.volume 0
  if current_price = 0 then simple_technical_decision d
  else
    let trend_strength := |ema - sma| / current_price
    let volatility := bb_width / current_price
    let is_trending := trend_strength > 2/100
    let is_volatile := volatility > 5/100
    let has_momentum := |macd_histogram| > 1/1000 * current_price
    let trend_factor : ℚ :=
      if is_trending then 15/10
      else if is_volatile ∧ ¬is_trending then 8/10
      else 1
    let rsi_score : ℚ :=
      if rsi < 30 then (if ¬is_trending then 15/10 else 1)
      else if rsi < 40 then (if ¬is_trending then 1 else 1/2)
      else if rsi > 70 then (if ¬is_trending then -(15/10) else -1)
      else if rsi > 60 then (if ¬is_trending then -1 else -(1/2))
      else 0
    let macd_score : ℚ :=
      if macd_value > macd_signal ∧ has_momentum then 12/10
      else if macd_value > macd_signal then 8/10
      else if macd_value < macd_signal ∧ has_momentum then -(12/10)
      else if macd_value < macd_signal then -(8/10)
      else 0
    let ma_score : ℚ :=
      if current_price > ema ∧ ema > sma then (if is_trending then 1 else 1/2)
      else if current_price < ema ∧ ema < sma then
        (if is_trending then -1 else -(1/2))
      else 0
    let bb_score : ℚ :=
      if bb_position < 15/100 ∧ ¬is_trending then 15/10
      else if bb_position < 25/100 ∧ ¬is_trending then 1
      else if bb_position > 85/100 ∧ ¬is_trending then -(15/10)
      else if bb_position > 75/100 ∧ ¬is_trending then -1
      else if is_trending then
        (if current_price > bb_data.upper ∧ ma_score > 0 then 8/10
         else if current_price < bb_data.lower ∧ ma_score < 0 then -(8/10)
         else 0)
      else 0
    let stoch_diff := stoch_k - stoch_d
    let stoch_score : ℚ :=
      if stoch_k < 20 ∧ stoch_diff > 5 then 12/10
      else if stoch_k < 30 ∧ stoch_diff > 0 then 8/10
      else if stoch_k > 80 ∧ stoch_diff < -5 then -(12/10)
      else if stoch_k > 70 ∧ stoch_diff < 0 then -(8/10)
      else 0
    let rsi_s := rsi_score * trend_factor
    let macd_s := macd_score * trend_factor
    let bb_s := bb_score * trend_factor
    let stoch_s := stoch_score * trend_factor
    let total0 := rsi_s + macd_s + ma_score + bb_s + stoch_s
    let scored := [rsi_s, macd_s, bb_s, stoch_s]
    let bullish := (scored.filter (fun s => s > 1/2)).length
    let bearish := (scored.filter (fun s => s < -(1/2))).length
    let agreement := max bullish bearish
    let total1 :=
      if agreement ≥ 3 then total0 * 12/10
      else if agreement = 1 then total0 * 7/10
      else total0
    let total2 :=
      if volume > 0 then
        total1 * (if |total1| > 1/2 then 11/10 else 1)
      else total1
    let base_buy : ℚ := if is_volatile ∨ is_trending then 12/10 else 7/10
    let base_sell : ℚ := if is_volatile ∨ is_trending then -(12/10) else -(7/10)
    let buy_th0 :=
      if agreement ≥ 3 then base_buy * 8/10
      else if agreement ≤ 1 then base_buy * 15/10
      else base_buy
    let sell_th0 :=
      if agreement ≥ 3 then base_sell * 8/10
      else if agreement ≤ 1 then base_sell * 15/10
      else base_sell
    let aligned := (total2 > 0 ∧ ma_score > 0) ∨ (total2 < 0 ∧ ma_score < 0)
    let buy_th := if is_trending ∧ ma_score ≠ 0 ∧ aligned then buy_th0 * 8/10 else buy_th0
    let sell_th := if is_trending ∧ ma_score ≠ 0 ∧ aligned then sell_th0 * 8/10 else sell_th0
    if total2 ≥ buy_th then .BUY
    else if total2 ≤ sell_th then .SELL
    else .HOLD

/-- One OHLCV bar of a price window. -/
structure Bar where
  open_ : ℚ
  high : ℚ
  low : ℚ
  close : ℚ
  volume : ℚ
deriving DecidableEq, Repr

/-- Python exceptions observable from the decision pipeline. -/
inductive PyErr where
  | valueError
  | attributeError
  | indexError
deriving DecidableEq, Repr

/-- Embedding of `AdvancedTradingAlgorithm.calculate_advanced_indicators` (source lines
52-169) in the environment where the external `talib` package is absent
(`TALIB_AVAILABLE = False`), which is the configuration whose computations
live in this repository.  A window shorter than 30 bars raises `ValueError`
(line 56).  Otherwise the fallback branch is taken and line 87 evaluates
`typical_price.rolling(20)` where `typical_price = (high + low + close) / 3`
is a `numpy` array; `numpy` arrays have no `rolling` method, so the call
raises `AttributeError` before any indicator value is produced.  The values
computed on lines 75-84 are discarded by that exception, so the function
never returns normally in this configuration. -/
def calculate_advanced_indicators (w : List Bar) :
    Except PyErr IndicatorsDict :=
  if w.length < 30 then .error .valueError
  else .error .attributeError

/-- The `basic_indicators` dictionary built in the `except` handler of
`make_advanced_trading_decision` (source lines 606-613), from the last close
of the price data.  Only the listed keys are present. -/
def basic_indicators (lastClose : ℚ) : QbdDict :=
  { rsi := some 50
    macd := some ⟨0, 0, 0⟩
    ema := some lastClose
    sma := some lastClose
    bollinger_bands := some ⟨lastClose * 102/100, lastClose, lastClose * 98/100⟩
    current_price := some lastClose
    bb_position := none
    bb_width := none
    stochastic := none
    volume := none }

/-- The decision record returned by `make_advanced_trading_decision`.  The
informational `detailed_signals` and `indicators_used` dictionaries of the
source are echoes of inputs already modelled elsewhere and are not fields of
any claim, so they are omitted. -/
structure DecisionRecord where
  decision : Decision
  strength : Strength
  combined_signal : ℚ
  confidence : ℚ
  regime : Regime
  position_size : ℚ
deriving DecidableEq, Repr

/-- The record built by the `except` handler of
`make_advanced_trading_decision` (source lines 614-624), given the last
close of the price data. -/
def fallbackRecord (lastClose portfolio_value : ℚ) : DecisionRecord :=
  { decision := quant_based_decision (basic_indicators lastClose)
    strength := .FALLBACK
    combined_signal := 0
    confidence := 3/10
    regime := .unknown
    position_size := portfolio_value * 1/100 }

/-- Embedding of `make_advanced_trading_decision` (source lines 546-624).  On success the
record is built from the generated signals and the combined-signal
thresholding of lines 566-580.  When indicator computation raises, the
handler first evaluates `price_data['close'].iloc[-1]` (lines 608-612),
which raises `IndexError` on an empty window; otherwise it returns the
fallback record. -/
def make_advanced_trading_decision (asset : String) (w : List Bar)
    (portfolio_value : ℚ) : Except PyErr DecisionRecord :=
  match calculate_advanced_indicators w with
  | .ok ind =>
      let sig := generate_advanced_signals ind asset portfolio_value
      let ds := decideFromSignal sig.combined_signal
      .ok { decision := ds.1, strength := ds.2
            combined_signal := sig.combined_signal
            confidence := sig.confidence
            regime := sig.regime
            position_size := sig.position_size }
  | .error _ =>
      match w.getLast? with
      | none => .error .indexError
      | some bar => .ok (fallbackRecord bar.close portfolio_value)

/-! ## Portfolio simulation (`src/trading/hyperliquid_api.py`) -/

/-- One entry of the `positions` dictionary. -/
structure Position where
  size : ℚ
  entry_price : ℚ
  usd_value : ℚ
deriving DecidableEq, Repr

/-- The global `simulation_state` dictionary.  The `cash` key is only
created by `execute_initial_allocation_simulation`, so it is an `Option`
here; `trade_history` is an append-only journal never read by the claims
and is omitted. -/
structure SimState where
  portfolio_value : ℚ
  positions : List (String × Position)
  cash : Option ℚ
  inited : Bool
  alloc_done : Bool
deriving DecidableEq, Repr

/-- The module-level initial value of `simulation_state` (source lines
10-16): no positions, no `cash` key, not yet initialized. -/
def initial_state : SimState :=
  { portfolio_value := 1000, positions := [], cash := none
    inited := false, alloc_done := false }

/-- Dictionary lookup in the positions mapping. -/
def posLookup (asset : String) (ps : List (String × Position)) :
    Option Position :=
  (ps.find? (fun p => p.1 = asset)).map (·.2)

/-- Dictionary write `positions[asset] = p`: replace the entry if the key is
present, append otherwise. -/
def posInsert (asset : String) (p : Position)
    (ps : List (String × Position)) : List (String × Position) :=
  match ps with
  | [] => [(asset, p)]
  | q :: t => if q.1 = asset then (asset, p) :: t else q :: posInsert asset p t

/-- Sum of the `usd_value` fields over all positions. -/
def sumUsd (ps : List (String × Position)) : ℚ :=
  (ps.map (fun p => p.2.usd_value)).sum

/-- Embedding of `initialize_simulation` (source lines 18-33) with explicit starting
funds.  Note that the function resets positions and flags but leaves an
existing `cash` key untouched, exactly as the source does. -/
def init_simulation (s : SimState) (starting_funds : ℚ) : SimState :=
  { s with portfolio_value := starting_funds, positions := []
           inited := true, alloc_done := false }

/-- Embedding of `execute_trade_simulation` (source lines 47-147), returning the updated
state.  The four decision branches (buy/long, sell/short, hold, unknown)
perform the identical position update and differ only in the interval the
random `profit_factor` is drawn from, so the sampled factor is an explicit
input here.  `cfg_funds` is the configured starting-funds value used by the
not-yet-initialized branch.  The returned result dictionary and the trade
journal are not modelled. -/
def execute_trade_simulation (cfg_funds : ℚ) (s0 : SimState)
    (asset : String) (_decision : String) (factor : ℚ) : SimState :=
  let s := if s0.inited then s0 else init_simulation s0 cfg_funds
  let cur := (posLookup asset s.positions).getD ⟨0, 0, 0⟩
  let newPos : Position :=
    { size := cur.size * factor
      entry_price := cur.entry_price * factor
      usd_value := cur.usd_value * factor }
  let ps := posInsert asset newPos s.positions
  -- lines 113-118: total starts from `simulation_state.get('cash', 0)`
  let total := s.cash.getD 0 + sumUsd ps
  { s with positions := ps, portfolio_value := total }

/-- Fraction lookup in an allocation mapping. -/
def lookupFrac (a : String) (l : List (String × ℚ)) : Option ℚ :=
  (l.find? (fun p => p.1 = a)).map (·.2)

/-- The per-asset body of the allocation loop of
`execute_initial_allocation_simulation` (source lines 161-178), acting on
the pair (positions, remaining portfolio). -/
def allocStep (initial : ℚ) (alloc : List (String × ℚ))
    (st : List (String × Position) × ℚ) (asset : String) :
    List (String × Position) × ℚ :=
  match lookupFrac asset alloc with
  | none => st
  | some pct =>
      let amount := initial * pct
      let newP : Position :=
        match posLookup asset st.1 with
        | none => { size := amount, entry_price := 1, usd_value := amount }
        | some p => { size := p.size + amount, entry_price := p.entry_price
                      usd_value := p.usd_value + amount }
      (posInsert asset newP st.1, st.2 - amount)

/-- Embedding of `execute_initial_allocation_simulation` (source lines 149-211),
returning the updated state: allocate `initial × fraction` to each listed
asset present in the allocation data, store the remainder as `cash`, and
keep `portfolio_value` unchanged. -/
def execute_initial_allocation_simulation (cfg_funds : ℚ) (s0 : SimState)
    (assets : List String) (alloc : List (String × ℚ)) : SimState :=
  let s := if s0.inited then s0 else init_simulation s0 cfg_funds
  let initial := s.portfolio_value
  let res := assets.foldl (allocStep initial alloc) (s.positions, initial)
  { s with positions := res.1, cash := some res.2
           portfolio_value := initial, alloc_done := true }

/-- The §3 portfolio invariant: total value equals cash plus the sum of
position USD values (a missing `cash` key reads as 0, as in
`execute_trade_simulation`). -/
def PortfolioInv (s : SimState) : Prop :=
  s.portfolio_value = s.cash.getD 0 + sumUsd s.positions

/-! ## Allocation maker (`src/agent/allocation_maker.py`) -/

/-- The indicator values read by `_calculate_risk_weighted_allocation`
through `.get` with numeric defaults; a missing key behaves exactly like a
key holding the default value, so plain fields suffice. -/
structure AnalysisInd where
  roc : ℚ
  hurst_exponent : ℚ
  volatility : ℚ
  rsi : ℚ
deriving DecidableEq, Repr

/-- One per-asset entry of the `advanced_analyses` dictionary. -/
structure Analysis where
  combined_signal : ℚ
  confidence : ℚ
  indicators : AnalysisInd
deriving DecidableEq, Repr

/-- The comprehensive score of one asset in
`_calculate_risk_weighted_allocation` (source lines 168-207). -/
def assetScore (analyses : String → Analysis) (a : String) : ℚ :=
  let an := analyses a
  let ind := an.indicators
  let signal_strength := |an.combined_signal| * an.confidence
  let momentum_score := |ind.roc| * 10
  let trend_score : ℚ :=
    if ind.hurst_exponent > 6/10 then 3/10
    else if ind.hurst_exponent < 4/10 then 2/10
    else 1/10
  let vol_score := max (1/10) (1 - ind.volatility / (1/10))
  let rsi_score := 1 - |ind.rsi - 50| / 50
  signal_strength * 3/10 + momentum_score * 2/10 + trend_score * 2/10 +
    vol_score * 15/100 + rsi_score * 15/100

/-- Embedding of `_calculate_risk_weighted_allocation` (source lines 158-219).  The
`asset_scores` dictionary and the allocation dictionary are built by a loop
over `assets`; for duplicate-free asset lists (the only lists on which the
dictionary model and this list model agree) it is the mapping below. -/
def risk_weighted_allocation (analyses : String → Analysis)
    (assets : List String) : List (String × ℚ) :=
  let total := (assets.map (assetScore analyses)).sum
  if total > 0 then
    assets.map (fun a => (a, assetScore analyses a / total))
  else
    assets.map (fun a =>
      (a, if assets.length > 0 then 1 / (assets.length : ℚ) else 0))

/-- Sum of the fractions of an allocation mapping. -/
def sumFracs (l : List (String × ℚ)) : ℚ := (l.map (·.2)).sum

/-- The validation/normalization step applied to a parsed external
allocation suggestion in `make_advanced_initial_allocation_decision`
(source lines 125-150): if the suggested total is within [0.8, 1.2], keep
exactly the listed assets (missing ones at 0.0) and normalize when the
retained sum is positive; `none` means control falls through to the
risk-weighted fallback. -/
def validate_llm_allocation (assets : List String)
    (suggestion : List (String × ℚ)) : Option (List (String × ℚ)) :=
  let total := sumFracs suggestion
  if 8/10 ≤ total ∧ total ≤ 12/10 then
    let final := assets.map (fun a => (a, (lookupFrac a suggestion).getD 0))
    let actual_sum := sumFracs final
    some (if actual_sum > 0 then
            final.map (fun p => (p.1, p.2 / actual_sum))
          else final)
  else none

/-! ## Real-valued computations

Standard deviations and logarithms make the Bollinger-band and
Hurst-exponent computations genuinely real-valued, so this part of the
embedding lives over `ℝ` (and is necessarily noncomputable). -/

/-- Embedding of `np.mean` over a list (0 on the empty list, which the sources guard
against). -/
noncomputable def npMean (xs : List ℝ) : ℝ := xs.sum / xs.length

/-- Embedding of `np.std`: population standard deviation (`ddof = 0`). -/
noncomputable def npStd (xs : List ℝ) : ℝ :=
  Real.sqrt (npMean (xs.map (fun x => (x - npMean xs) ^ 2)))

/-- The last `k` elements of a list, `prices[-k:]`. -/
def lastN (k : ℕ) (xs : List ℝ) : List ℝ := xs.drop (xs.length - k)

/-- Real-valued Bollinger-band triple. -/
structure BbandsR where
  upper : ℝ
  middle : ℝ
  lower : ℝ

/-- Embedding of `QuantIndicatorCalculator._calculate_bollinger_bands`
(quant_indicator_calculator.py, fallback branch): middle band is the mean
of the last 20 closes (or of the whole window when shorter, or 0 when
empty), with the bands at ±2 population standard deviations.  The
pandas-ta primary branch calls the external `ta.bbands` and is not
repository code. -/
noncomputable def calculate_bollinger_bands (prices : List ℝ) : BbandsR :=
  let sma :=
    if prices.length ≥ 20 then npMean (lastN 20 prices)
    else if prices.length > 0 then npMean prices else 0
  let std :=
    if prices.length ≥ 20 then npStd (lastN 20 prices)
    else if prices.length > 0 then npStd prices else 0
  { upper := sma + 2 * std, middle := sma, lower := sma - 2 * std }

open Classical in
/-- The `bb_position` value of
`QuantIndicatorCalculator.calculate_indicators_from_data` (lines 83-84):
the fractional position of the last close between the computed bands, 0.5
when the band width is zero.  Callers always pass a nonempty window, so
`close_prices[-1]` is modelled with `getLast?.getD 0`. -/
noncomputable def bb_position_of_data (closes : List ℝ) : ℝ :=
  let bb := calculate_bollinger_bands closes
  let width := bb.upper - bb.lower
  if width ≠ 0 then ((closes.getLast?.getD 0) - bb.lower) / width
  else 1/2

/-- Embedding of `np.cumsum`: the list of nonempty partial sums. -/
def cumsum (xs : List ℝ) : List ℝ := (xs.scanl (· + ·) 0).drop 1

/-- Maximum of a list of reals (0 on the empty list, never consulted). -/
def listMax : List ℝ → ℝ
  | [] => 0
  | x :: t => t.foldl max x

/-- Minimum of a list of reals (0 on the empty list, never consulted). -/
def listMin : List ℝ → ℝ
  | [] => 0
  | x :: t => t.foldl min x

/-- The start offsets `range(0, n - scale, scale)` of the non-overlapping
segments at one scale. -/
def segStarts (n scale : ℕ) : List ℕ :=
  List.range' 0 ((n - scale + scale - 1) / scale) scale

/-- The scale list `np.arange(10, min(50, n//2))`. -/
def hurstScales (n : ℕ) : List ℕ := List.range' 10 (min 50 (n / 2) - 10)

open Classical in
/-- The rescaled range `r/s` of one segment of the log-price series
(`_calculate_hurst_exponent`, source lines 190-202): `none` models both the
`continue` on segments shorter than 2 and the skipped append when the
segment's standard deviation is zero. -/
noncomputable def segmentRS (seg : List ℝ) : Option ℝ :=
  if seg.length < 2 then none
  else
    let m := npMean seg
    let devs := seg.map (fun x => x - m)
    let cs := cumsum devs
    let r := listMax cs - listMin cs
    let s := npStd seg
    if s = 0 then none else some (r / s)

/-- The list `rs` of valid rescaled-range values at one scale. -/
noncomputable def scaleRS (logs : List ℝ) (n scale : ℕ) : List ℝ :=
  (segStarts n scale).filterMap (fun st => segmentRS ((logs.drop st).take scale))

/-- The list `rs_vals` of mean rescaled ranges, one entry per scale whose
`rs` list is nonempty (source lines 187-205). -/
noncomputable def hurstRsVals (logs : List ℝ) (n : ℕ) : List ℝ :=
  (hurstScales n).filterMap (fun sc =>
    match scaleRS logs n sc with
    | [] => none
    | rs => some (npMean rs))

/-- The least-squares slope returned by `scipy.stats.linregress`. -/
noncomputable def linregress_slope (xs ys : List ℝ) : ℝ :=
  let n : ℝ := xs.length
  let sx := xs.sum
  let sy := ys.sum
  let sxy := ((xs.zip ys).map (fun p => p.1 * p.2)).sum
  let sxx := (xs.map (fun x => x ^ 2)).sum
  (n * sxy - sx * sy) / (n * sxx - sx ^ 2)

/-- Embedding of `AdvancedTradingAlgorithm._calculate_hurst_exponent` (source lines
171-217): `None` below 20 bars; otherwise the regression slope of
log(mean rescaled range) against the logs of the first `len(rs_vals)`
scales when at least 2 scales produced a valid value, else 0.5.  For
positive prices no statement of the body raises, so the blanket `except`
handler is unreachable and not modelled. -/
noncomputable def calculate_hurst_exponent (prices : List ℝ) : Option ℝ :=
  let n := prices.length
  if n < 20 then none
  else
    let logs := prices.map Real.log
    let rs_vals := hurstRsVals logs n
    if rs_vals ≠ [] ∧ rs_vals.length > 1 then
      some (linregress_slope
        (((hurstScales n).take rs_vals.length).map (fun sc => Real.log (sc : ℝ)))
        (rs_vals.map Real.log))
    else some (1/2)

/-- The Hurst value stored in the indicator set
(`calculate_advanced_indicators`, source lines 123-124): the computed value
if not `None`, else the random-walk default 0.5. -/
noncomputable def hurst_indicator (prices : List ℝ) : ℝ :=
  (calculate_hurst_exponent prices).getD (1/2)

/-- The Hurst computation as worded by the claim: 0.5 whenever the window
has fewer than 20 bars or fewer than 2 scales yield a valid mean
rescaled-range value; otherwise the regression slope of log(mean rescaled
range) against log(scale). -/
noncomputable def hurstSpec (prices : List ℝ) : ℝ :=
  if prices.length < 20 then 1/2
  else
    let logs := prices.map Real.log
    let rs_vals := hurstRsVals logs prices.length
    if rs_vals.length < 2 then 1/2
    else
      linregress_slope
        (((hurstScales prices.length).take rs_vals.length).map
          (fun sc => Real.log (sc : ℝ)))
        (rs_vals.map Real.log)

/-! ## Concrete inputs used by counterexamples and witnesses -/

/-- A 30-bar close series whose last value breaks far out of its own
Bollinger bands: 29 closes at 1 followed by a close at 100. -/
noncomputable def breakoutWindow : List ℝ :=
  [1, 1, 1, 1, 1, 1, 1, 1, 1, 1, 1, 1, 1, 1, 1,
   1, 1, 1, 1, 1, 1, 1, 1, 1, 1, 1, 1, 1, 1, 100]

/-- A 20-bar close series alternating between 1 and 3, whose last close lies
inside its Bollinger bands (mean 2, population standard deviation 1). -/
noncomputable def altWindow : List ℝ :=
  [1, 3, 1, 3, 1, 3, 1, 3, 1, 3, 1, 3, 1, 3, 1, 3, 1, 3, 1, 3]

/-- An indicator dictionary whose only present key is an oversold RSI. -/
def lowRsiDict : QbdDict :=
  { rsi := some 20, macd := none, ema := none, sma := none
    bollinger_bands := none, current_price := none, bb_position := none
    bb_width := none, stochastic := none, volume := none }

/-- An indicator dictionary whose only present key is an overbought RSI. -/
def highRsiDict : QbdDict :=
  { rsi := some 80, macd := none, ema := none, sma := none
    bollinger_bands := none, current_price := none, bb_position := none
    bb_width := none, stochastic := none, volume := none }

/-- A neutral analysis entry used to instantiate the allocation claims. -/
def neutralAnalysis : Analysis :=
  { combined_signal := 0, confidence := 3/10
    indicators := { roc := 0, hurst_exponent := 1/2, volatility := 2/100, rsi := 50 } }

/-! ## Theorems -/

/-- Helper: `calculate_advanced_indicators` raises on every window in the
modelled (talib-free) configuration. -/
theorem calc_indicators_always_error (w : List Bar) :
    ∃ e, calculate_advanced_indicators w = .error e := by
  unfold calculate_advanced_indicators
  split <;> exact ⟨_, rfl⟩

/-- C1: Regime detection is a pure function of the indicator set and applies
the five priority-ordered rules of §4.2 in order (volatility, then Hurst
trending, then Hurst ranging, then ATR, else ranging), and an indicator set
with volatility = 0.06 × price and hurst = 0.8 classifies as volatile, not
trending. -/
theorem regime_detection_priority :
    (∀ ind : IndicatorsDict, detect_regime ind = regimeSpec ind) ∧
    detect_regime volatileTrendyInd = Regime.volatile ∧
    volatileTrendyInd.volatility = 6/100 * volatileTrendyInd.current_price ∧
    volatileTrendyInd.hurst_exponent = 8/10 := by
  refine ⟨fun ind => rfl, ?_, by norm_num [volatileTrendyInd], by norm_num [volatileTrendyInd]⟩
  norm_num [detect_regime, volatileTrendyInd]

/-- C2: the combined-signal thresholding maps (0.3, ∞) to BUY/STRONG,
(0.1, 0.3] to BUY/WEAK, (-∞, -0.3) to SELL/STRONG, [-0.3, -0.1) to
SELL/WEAK and [-0.1, 0.1] to HOLD/NEUTRAL, and is monotone from SELL/STRONG
toward BUY/STRONG as the combined signal increases. -/
theorem combined_signal_thresholds :
    (∀ c : ℚ, c > 3/10 → decideFromSignal c = (Decision.BUY, Strength.STRONG)) ∧
    (∀ c : ℚ, 1/10 < c → c ≤ 3/10 → decideFromSignal c = (Decision.BUY, Strength.WEAK)) ∧
    (∀ c : ℚ, c < -(3/10) → decideFromSignal c = (Decision.SELL, Strength.STRONG)) ∧
    (∀ c : ℚ, -(3/10) ≤ c → c < -(1/10) → decideFromSignal c = (Decision.SELL, Strength.WEAK)) ∧
    (∀ c : ℚ, -(1/10) ≤ c → c ≤ 1/10 → decideFromSignal c = (Decision.HOLD, Strength.NEUTRAL)) ∧
    (∀ c₁ c₂ : ℚ, c₁ ≤ c₂ →
      decisionRank (decideFromSignal c₁) ≤ decisionRank (decideFromSignal c₂)) := by
  refine ⟨?_, ?_, ?_, ?_, ?_, ?_⟩
  · intro c h; unfold decideFromSignal; split_ifs <;> first | rfl | linarith
  · intro c h1 h2; unfold decideFromSignal; split_ifs <;> first | rfl | linarith
  · intro c h; unfold decideFromSignal; split_ifs <;> first | rfl | linarith
  · intro c h1 h2; unfold decideFromSignal; split_ifs <;> first | rfl | linarith
  · intro c h1 h2; unfold decideFromSignal; split_ifs <;> first | rfl | linarith
  · intro c₁ c₂ h
    unfold decideFromSignal
    split_ifs <;> simp only [decisionRank] <;> first | omega | linarith

/-- Witness for C2 at concrete signal values. -/
theorem combined_signal_thresholds_witness :
    decideFromSignal (2/5) = (Decision.BUY, Strength.STRONG) ∧
    decideFromSignal (1/5) = (Decision.BUY, Strength.WEAK) ∧
    decideFromSignal (-(2/5)) = (Decision.SELL, Strength.STRONG) ∧
    decideFromSignal (-(1/5)) = (Decision.SELL, Strength.WEAK) ∧
    decideFromSignal 0 = (Decision.HOLD, Strength.NEUTRAL) ∧
    decisionRank (decideFromSignal (1/5)) ≤ decisionRank (decideFromSignal (2/5)) :=
  ⟨combined_signal_thresholds.1 (2/5) (by norm_num),
   combined_signal_thresholds.2.1 (1/5) (by norm_num) (by norm_num),
   combined_signal_thresholds.2.2.1 (-(2/5)) (by norm_num),
   combined_signal_thresholds.2.2.2.1 (-(1/5)) (by norm_num) (by norm_num),
   combined_signal_thresholds.2.2.2.2.1 0 (by norm_num) (by norm_num),
   combined_signal_thresholds.2.2.2.2.2 (1/5) (2/5) (by norm_num)⟩

/-- C3: for any indicator set, regime and nonnegative portfolio value the
position sizer returns a dollar amount within [0, 0.25 × portfolio], the
underlying fraction is capped at 0.10 before the dollar total-risk cap, and
the win-rate estimate is clamped to [0.45, 0.65]. -/
theorem position_sizer_bounds (ind : IndicatorsDict) (regime : Regime)
    (asset : String) (pv : ℚ) (hpv : 0 ≤ pv) :
    (0 ≤ calculate_position_size asset ind pv regime ∧
     calculate_position_size asset ind pv regime ≤ pv * (1/4)) ∧
    position_fraction ind regime ≤ 1/10 ∧
    (45/100 ≤ estimate_win_rate ind regime ∧
     estimate_win_rate ind regime ≤ 65/100) := by
  have hfrac0 : 0 ≤ position_fraction ind regime := by
    unfold position_fraction
    refine le_min (by norm_num [max_position_size]) ?_
    split_ifs
    · exact mul_nonneg (div_nonneg (mul_nonneg (le_max_left _ _)
        (by norm_num)) (by norm_num)) (by norm_num [kelly_fraction])
    · exact mul_nonneg (div_nonneg (mul_nonneg (le_max_left _ _)
        (by norm_num)) (by norm_num)) (by norm_num [kelly_fraction])
    · exact mul_nonneg (le_max_left _ _) (by norm_num [kelly_fraction])
  have hfrac1 : position_fraction ind regime ≤ 1/10 := by
    unfold position_fraction
    exact le_trans (min_le_left _ _) (by norm_num [max_position_size])
  refine ⟨⟨?_, ?_⟩, hfrac1, ?_, ?_⟩
  · unfold calculate_position_size
    exact le_min (mul_nonneg hpv hfrac0)
      (mul_nonneg hpv (by norm_num [max_total_risk]))
  · unfold calculate_position_size
    exact le_trans (min_le_right _ _) (by norm_num [max_total_risk])
  · unfold estimate_win_rate
    exact le_max_left _ _
  · unfold estimate_win_rate
    exact max_le (by norm_num) (min_le_left _ _)

/-- Witness for C3 at a concrete indicator set, regime and portfolio. -/
theorem position_sizer_bounds_witness :
    (0 ≤ calculate_position_size ("BTC") volatileTrendyInd 1000 Regime.trending ∧
     calculate_position_size ("BTC") volatileTrendyInd 1000 Regime.trending ≤ 1000 * (1/4)) ∧
    position_fraction volatileTrendyInd Regime.trending ≤ 1/10 ∧
    (45/100 ≤ estimate_win_rate volatileTrendyInd Regime.trending ∧
     estimate_win_rate volatileTrendyInd Regime.trending ≤ 65/100) :=
  position_sizer_bounds volatileTrendyInd Regime.trending ("BTC") 1000 (by norm_num)

/-- Helper: on the `basic_indicators` dictionary the quant-based fallback
scorer always lands in the HOLD band, because the hard-coded neutral inputs
zero out every score while the weak-agreement multiplier raises the decision
thresholds to ±1.05 (and a zero last close diverts through the
`ZeroDivisionError` handler to the RSI-only rule, which also holds). -/
theorem quant_based_on_basic_holds (lastClose : ℚ) :
    quant_based_decision (basic_indicators lastClose) = Decision.HOLD := by
  by_cases hc : lastClose = 0
  · simp [quant_based_decision, basic_indicators, simple_technical_decision,
      pyGetOr, pyOr, hc]
    norm_num
  · simp only [quant_based_decision, basic_indicators, pyGetOr, pyOr]
    norm_num [hc, simple_technical_decision, pyGetOr, pyOr]

/-- C7: when indicator computation fails, the returned record has strength
FALLBACK, confidence exactly 0.3, position size exactly 1% of portfolio
value, and its decision agrees with the RSI-only rule (RSI < 30 → BUY,
RSI > 70 → SELL, else HOLD) applied to the fallback indicator set, whose
RSI is the neutral 50 — hence HOLD. -/
theorem fallback_tier_record (lastClose pv : ℚ) :
    (fallbackRecord lastClose pv).strength = Strength.FALLBACK ∧
    (fallbackRecord lastClose pv).confidence = 3/10 ∧
    (fallbackRecord lastClose pv).position_size = pv * 1/100 ∧
    (fallbackRecord lastClose pv).decision =
      simple_technical_decision (basic_indicators lastClose) ∧
    (∀ d : QbdDict, pyGetOr d.rsi 50 < 30 → simple_technical_decision d = .BUY) ∧
    (∀ d : QbdDict, pyGetOr d.rsi 50 > 70 → simple_technical_decision d = .SELL) ∧
    (∀ d : QbdDict, 30 ≤ pyGetOr d.rsi 50 → pyGetOr d.rsi 50 ≤ 70 →
      simple_technical_decision d = .HOLD) := by
  refine ⟨rfl, rfl, rfl, ?_, ?_, ?_, ?_⟩
  · show quant_based_decision (basic_indicators lastClose) = _
    rw [quant_based_on_basic_holds]
    norm_num [simple_technical_decision, basic_indicators, pyGetOr, pyOr]
  · intro d h; unfold simple_technical_decision; rw [if_pos h]
  · intro d h
    unfold simple_technical_decision
    rw [if_neg (by linarith), if_pos h]
  · intro d h1 h2
    unfold simple_technical_decision
    rw [if_neg (by linarith), if_neg (by linarith)]

/-- Witness for C7 at concrete inputs, exercising each branch of the
RSI-only rule. -/
theorem fallback_tier_record_witness :
    (fallbackRecord 100 1000).strength = Strength.FALLBACK ∧
    (fallbackRecord 100 1000).confidence = 3/10 ∧
    (fallbackRecord 100 1000).position_size = 1000 * 1/100 ∧
    (fallbackRecord 100 1000).decision =
      simple_technical_decision (basic_indicators 100) ∧
    simple_technical_decision lowRsiDict = Decision.BUY ∧
    simple_technical_decision highRsiDict = Decision.SELL ∧
    simple_technical_decision (basic_indicators 100) = Decision.HOLD :=
  ⟨(fallback_tier_record 100 1000).1,
   (fallback_tier_record 100 1000).2.1,
   (fallback_tier_record 100 1000).2.2.1,
   (fallback_tier_record 100 1000).2.2.2.1,
   (fallback_tier_record 100 1000).2.2.2.2.1 lowRsiDict
     (by norm_num [lowRsiDict, pyGetOr, pyOr]),
   (fallback_tier_record 100 1000).2.2.2.2.2.1 highRsiDict
     (by norm_num [highRsiDict, pyGetOr, pyOr]),
   (fallback_tier_record 100 1000).2.2.2.2.2.2 (basic_indicators 100)
     (by norm_num [basic_indicators, pyGetOr, pyOr])
     (by norm_num [basic_indicators, pyGetOr, pyOr])⟩

/-- C4 counterexample: on an empty price window the fallback tier itself
evaluates `price_data['close'].iloc[-1]` and raises `IndexError`, which
propagates to the caller; the resolver does not return a decision record. -/
theorem resolver_raises_on_empty_window :
    make_advanced_trading_decision ("BTC") [] 1000 =
      Except.error PyErr.indexError := rfl

/-- C4 (amended): for every NON-EMPTY price-data input and portfolio value,
the resolver returns a well-formed decision record without raising; on the
empty window the exception handler itself raises `IndexError`. -/
theorem resolver_total_on_nonempty (asset : String) (w : List Bar)
    (pv : ℚ) (hw : w ≠ []) :
    ∃ r : DecisionRecord, make_advanced_trading_decision asset w pv =
      Except.ok r := by
  obtain ⟨e, he⟩ := calc_indicators_always_error w
  cases hlast : w.getLast? with
  | none =>
      exact absurd (List.getLast?_eq_none_iff.mp hlast) hw
  | some b =>
      exact ⟨fallbackRecord b.close pv,
        by unfold make_advanced_trading_decision; rw [he, hlast]⟩

/-- Witness for C4 (amended) at a concrete one-bar window. -/
theorem resolver_total_on_nonempty_witness :
    ∃ r : DecisionRecord,
      make_advanced_trading_decision ("BTC") [⟨1, 1, 1, 1, 1⟩] 1000 =
        Except.ok r :=
  resolver_total_on_nonempty ("BTC") [⟨1, 1, 1, 1, 1⟩] 1000 (by simp)

/-- C10: executing a trade while the `cash` key does not yet exist (for
example on a freshly initialized simulation, before any initial allocation)
recomputes the portfolio total with cash taken as 0, so the new portfolio
value is exactly the sum of the position USD values; on a fresh portfolio
with no positions it therefore drops from the starting funds to 0. -/
theorem trade_before_allocation (cfg : ℚ) (s : SimState) (a d : String)
    (f : ℚ) (hin : s.inited = true) (hcash : s.cash = none) :
    ((execute_trade_simulation cfg s a d f).portfolio_value =
       sumUsd (execute_trade_simulation cfg s a d f).positions) ∧
    (∀ (sf af : ℚ) (a2 d2 : String),
       (execute_trade_simulation cfg
         (init_simulation initial_state sf) a2 d2 af).portfolio_value = 0) := by
  constructor
  · unfold execute_trade_simulation
    rw [hin]
    simp [hcash]
  · intro sf af a2 d2
    simp [execute_trade_simulation, init_simulation, initial_state,
      posLookup, posInsert, sumUsd]

/-- Witness for C10 on a concrete freshly initialized state. -/
theorem trade_before_allocation_witness :
    ((execute_trade_simulation 0 (init_simulation initial_state 777)
        ("BTC") ("buy") 2).portfolio_value =
      sumUsd (execute_trade_simulation 0 (init_simulation initial_state 777)
        ("BTC") ("buy") 2).positions) ∧
    (∀ (sf af : ℚ) (a2 d2 : String),
       (execute_trade_simulation 0
         (init_simulation initial_state sf) a2 d2 af).portfolio_value = 0) :=
  trade_before_allocation 0 (init_simulation initial_state 777)
    ("BTC") ("buy") 2 rfl rfl

/-- Helper: dictionary write changes the USD sum by the difference between
the new entry and the displaced one. -/
theorem sumUsd_posInsert (a : String) (p : Position)
    (ps : List (String × Position)) :
    sumUsd (posInsert a p ps) =
      sumUsd ps + p.usd_value -
        ((posLookup a ps).getD ⟨0, 0, 0⟩).usd_value := by
  induction ps with
  | nil => simp [posInsert, posLookup, sumUsd]
  | cons q t ih =>
      by_cases hq : q.1 = a
      · simp [posInsert, posLookup, sumUsd, hq]
        ring
      · have hlk : posLookup a (q :: t) = posLookup a t := by
          unfold posLookup
          rw [List.find?_cons_of_neg]
          simp [hq]
        simp only [posInsert, if_neg hq]
        simp only [sumUsd, List.map_cons, List.sum_cons] at ih ⊢
        rw [hlk]
        rw [ih]
        ring

/-- Helper: the allocation loop conserves the sum of position USD values
plus the remaining portfolio. -/
theorem allocFold_sum (initial : ℚ) (alloc : List (String × ℚ)) :
    ∀ (assets : List String) (ps : List (String × Position)) (r : ℚ),
      sumUsd ((assets.foldl (allocStep initial alloc) (ps, r)).1) +
        (assets.foldl (allocStep initial alloc) (ps, r)).2 = sumUsd ps + r := by
  intro assets
  induction assets with
  | nil => intro ps r; rfl
  | cons a t ih =>
      intro ps r
      rw [List.foldl_cons]
      cases hl : lookupFrac a alloc with
      | none =>
          rw [show allocStep initial alloc (ps, r) a = (ps, r) from by
            simp [allocStep, hl]]
          exact ih ps r
      | some pct =>
          cases hpos : posLookup a ps with
          | none =>
              rw [show allocStep initial alloc (ps, r) a =
                  (posInsert a ⟨initial * pct, 1, initial * pct⟩ ps,
                    r - initial * pct) from by simp [allocStep, hl, hpos]]
              rw [ih, sumUsd_posInsert, hpos]
              simp only [Option.getD_none]
              ring
          | some p =>
              rw [show allocStep initial alloc (ps, r) a =
                  (posInsert a ⟨p.size + initial * pct, p.entry_price,
                      p.usd_value + initial * pct⟩ ps,
                    r - initial * pct) from by simp [allocStep, hl, hpos]]
              rw [ih, sumUsd_posInsert, hpos]
              simp only [Option.getD_some]
              ring

/-- Helper: the allocation loop's remaining portfolio is the initial value
minus the allocated amounts. -/
theorem allocFold_remaining (initial : ℚ) (alloc : List (String × ℚ)) :
    ∀ (assets : List String) (ps : List (String × Position)) (r : ℚ),
      (assets.foldl (allocStep initial alloc) (ps, r)).2 =
        r - initial *
          ((assets.map (fun a => (lookupFrac a alloc).getD 0)).sum) := by
  intro assets
  induction assets with
  | nil => intro ps r; simp
  | cons a t ih =>
      intro ps r
      rw [List.foldl_cons]
      cases hl : lookupFrac a alloc with
      | none =>
          rw [show allocStep initial alloc (ps, r) a = (ps, r) from by
            simp [allocStep, hl]]
          rw [ih]
          simp only [List.map_cons, List.sum_cons, hl, Option.getD_none]
          ring
      | some pct =>
          cases hpos : posLookup a ps with
          | none =>
              rw [show allocStep initial alloc (ps, r) a =
                  (posInsert a ⟨initial * pct, 1, initial * pct⟩ ps,
                    r - initial * pct) from by simp [allocStep, hl, hpos]]
              rw [ih]
              simp only [List.map_cons, List.sum_cons, hl, Option.getD_some]
              ring
          | some p =>
              rw [show allocStep initial alloc (ps, r) a =
                  (posInsert a ⟨p.size + initial * pct, p.entry_price,
                      p.usd_value + initial * pct⟩ ps,
                    r - initial * pct) from by simp [allocStep, hl, hpos]]
              rw [ih]
              simp only [List.map_cons, List.sum_cons, hl, Option.getD_some]
              ring

/-- Helper: every executed trade re-establishes the §3 portfolio invariant
by construction, since the new portfolio value is computed as cash plus the
position sum. -/
theorem trade_establishes_inv (cfg : ℚ) (s : SimState) (a d : String)
    (f : ℚ) : PortfolioInv (execute_trade_simulation cfg s a d f) := rfl

/-- Helper: any sequence of trades keeps the portfolio invariant. -/
theorem trades_foldl_inv (cfg : ℚ) :
    ∀ (ts : List (String × String × ℚ)) (s : SimState), PortfolioInv s →
      PortfolioInv (ts.foldl
        (fun s t => execute_trade_simulation cfg s t.1 t.2.1 t.2.2) s) := by
  intro ts
  induction ts with
  | nil => intro s h; exact h
  | cons t ts ih =>
      intro s _
      exact ih _ (trade_establishes_inv cfg s t.1 t.2.1 t.2.2)

/-- C8: after fresh initialization and an initial allocation whose applied
fractions sum to 1, `total_value = cash + Σ usd_value` holds, `cash` is
exactly 0, and the invariant continues to hold after every subsequent
sequence of trade executions; the 1000/{BTC 0.6, ETH 0.4} scenario yields
cash 0, BTC 600, ETH 400 and total 1000. -/
theorem portfolio_value_invariant :
    (∀ (cfg sf : ℚ) (assets : List String) (alloc : List (String × ℚ))
       (trades : List (String × String × ℚ)),
       (assets.map (fun a => (lookupFrac a alloc).getD 0)).sum = 1 →
       PortfolioInv (execute_initial_allocation_simulation cfg
           (init_simulation initial_state sf) assets alloc) ∧
       (execute_initial_allocation_simulation cfg
           (init_simulation initial_state sf) assets alloc).cash = some 0 ∧
       PortfolioInv (trades.foldl
         (fun s t => execute_trade_simulation cfg s t.1 t.2.1 t.2.2)
         (execute_initial_allocation_simulation cfg
           (init_simulation initial_state sf) assets alloc))) ∧
    (PortfolioInv (execute_initial_allocation_simulation 0
        (init_simulation initial_state 1000) [("BTC"), ("ETH")]
        [(("BTC"), 3/5), (("ETH"), 2/5)]) ∧
     (execute_initial_allocation_simulation 0
        (init_simulation initial_state 1000) [("BTC"), ("ETH")]
        [(("BTC"), 3/5), (("ETH"), 2/5)]).cash = some 0 ∧
     posLookup ("BTC") (execute_initial_allocation_simulation 0
        (init_simulation initial_state 1000) [("BTC"), ("ETH")]
        [(("BTC"), 3/5), (("ETH"), 2/5)]).positions = some ⟨600, 1, 600⟩ ∧
     posLookup ("ETH") (execute_initial_allocation_simulation 0
        (init_simulation initial_state 1000) [("BTC"), ("ETH")]
        [(("BTC"), 3/5), (("ETH"), 2/5)]).positions = some ⟨400, 1, 400⟩ ∧
     (execute_initial_allocation_simulation 0
        (init_simulation initial_state 1000) [("BTC"), ("ETH")]
        [(("BTC"), 3/5), (("ETH"), 2/5)]).portfolio_value = 1000) := by
  have hInvAlloc : ∀ (cfg sf : ℚ) (assets : List String)
      (alloc : List (String × ℚ)),
      PortfolioInv (execute_initial_allocation_simulation cfg
        (init_simulation initial_state sf) assets alloc) := by
    intro cfg sf assets alloc
    have h := allocFold_sum sf alloc assets [] sf
    have h0 : sumUsd ([] : List (String × Position)) = 0 := rfl
    rw [h0, zero_add] at h
    show sf = (assets.foldl (allocStep sf alloc)
        (([] : List (String × Position)), sf)).2 +
      sumUsd (assets.foldl (allocStep sf alloc) ([], sf)).1
    linarith [h]
  constructor
  · intro cfg sf assets alloc trades hsum
    refine ⟨hInvAlloc cfg sf assets alloc, ?_, ?_⟩
    · have h := allocFold_remaining sf alloc assets [] sf
      rw [hsum] at h
      show some ((assets.foldl (allocStep sf alloc)
          (([] : List (String × Position)), sf)).2) = some 0
      rw [h]
      norm_num
    · exact trades_foldl_inv cfg trades _ (hInvAlloc cfg sf assets alloc)
  · refine ⟨hInvAlloc 0 1000 _ _, ?_, ?_, ?_, ?_⟩ <;>
      · simp [execute_initial_allocation_simulation, init_simulation,
          initial_state, allocStep, lookupFrac, posLookup, posInsert,
          sumUsd, PortfolioInv]
        try norm_num

/-- Witness for C8 at a concrete allocation and trade sequence. -/
theorem portfolio_value_invariant_witness :
    PortfolioInv (execute_initial_allocation_simulation 0
        (init_simulation initial_state 500) [("SOL")] [(("SOL"), 1)]) ∧
    (execute_initial_allocation_simulation 0
        (init_simulation initial_state 500) [("SOL")] [(("SOL"), 1)]).cash =
      some 0 ∧
    PortfolioInv ([(("SOL"), ("buy"), (2:ℚ))].foldl
      (fun s t => execute_trade_simulation 0 s t.1 t.2.1 t.2.2)
      (execute_initial_allocation_simulation 0
        (init_simulation initial_state 500) [("SOL")] [(("SOL"), 1)])) :=
  portfolio_value_invariant.1 0 500 [("SOL")] [(("SOL"), 1)]
    [(("SOL"), ("buy"), (2:ℚ))] (by simp [lookupFrac])

/-- Helper: fraction sum of an asset-indexed mapping. -/
theorem sumFracs_map_pair (l : List String) (f : String → ℚ) :
    sumFracs (l.map (fun a => (a, f a))) = (l.map f).sum := by
  induction l with
  | nil => rfl
  | cons a r ih =>
      simp only [sumFracs, List.map_cons, List.sum_cons] at ih ⊢
      rw [ih]

/-- Helper: a list sum of pointwise quotients is the quotient of the sum. -/
theorem listSum_map_div (l : List String) (f : String → ℚ) (t : ℚ) :
    (l.map (fun a => f a / t)).sum = (l.map f).sum / t := by
  induction l with
  | nil => simp
  | cons a r ih => simp [ih, add_div]

/-- Helper: a list sum of a constant. -/
theorem listSum_map_const (l : List String) (c : ℚ) :
    (l.map (fun _ => c)).sum = l.length * c := by
  induction l with
  | nil => simp
  | cons a r ih =>
      simp only [List.map_cons, List.sum_cons, ih, List.length_cons]
      push_cast
      ring

/-- Helper: normalizing an allocation mapping divides its fraction sum. -/
theorem sumFracs_map_div (m : List (String × ℚ)) (s : ℚ) :
    sumFracs (m.map (fun p => (p.1, p.2 / s))) = sumFracs m / s := by
  induction m with
  | nil => simp [sumFracs]
  | cons q r ih => simp [sumFracs, add_div] at ih ⊢; rw [ih]

/-- Helper: a looked-up fraction is a value of the mapping. -/
theorem lookupFrac_mem (a : String) (l : List (String × ℚ)) (v : ℚ)
    (h : lookupFrac a l = some v) : ∃ x ∈ l, x.2 = v := by
  unfold lookupFrac at h
  cases hf : l.find? (fun p => p.1 = a) with
  | none => rw [hf] at h; simp at h
  | some x =>
      rw [hf] at h
      simp at h
      exact ⟨x, List.mem_of_find?_eq_some hf, h⟩

/-- Helper: the comprehensive asset score is nonnegative whenever the
analysis is well-formed (RSI within [0, 100] and nonnegative confidence). -/
theorem assetScore_nonneg (analyses : String → Analysis) (a : String)
    (hconf : 0 ≤ (analyses a).confidence)
    (hr0 : 0 ≤ (analyses a).indicators.rsi)
    (hr1 : (analyses a).indicators.rsi ≤ 100) :
    0 ≤ assetScore analyses a := by
  unfold assetScore
  have hA : 0 ≤ |(analyses a).combined_signal| * (analyses a).confidence :=
    mul_nonneg (abs_nonneg _) hconf
  have hB : (0:ℚ) ≤ |(analyses a).indicators.roc| * 10 :=
    mul_nonneg (abs_nonneg _) (by norm_num)
  have hD : (1:ℚ)/10 ≤
      max (1/10) (1 - (analyses a).indicators.volatility / (1/10)) :=
    le_max_left _ _
  have hE : |(analyses a).indicators.rsi - 50| ≤ 50 :=
    abs_le.mpr ⟨by linarith, by linarith⟩
  have hF : |(analyses a).indicators.rsi - 50| / 50 ≤ 1 :=
    (div_le_one (by norm_num)).mpr hE
  have hG : (0:ℚ) ≤ |(analyses a).indicators.rsi - 50| / 50 :=
    div_nonneg (abs_nonneg _) (by norm_num)
  dsimp only
  split_ifs <;> nlinarith [hA, hB, hD, hF, hG]

/-- C9 counterexample: on the external-suggestion path, a suggestion whose
weight goes entirely to an asset outside the requested list passes the
[0.8, 1.2] total check, yields an all-zero retained allocation, skips
normalization (the retained sum is not positive), and returns a mapping
whose fractions sum to 0, not 1. -/
theorem llm_allocation_sum_zero :
    validate_llm_allocation [("BTC")] [(("ETH"), 1)] =
      some [(("BTC"), 0)] ∧
    sumFracs [(("BTC"), (0:ℚ))] = 0 := by
  have hlk : lookupFrac ("BTC") [(("ETH"), (1:ℚ))] = none := by
    simp [lookupFrac]
  constructor
  · unfold validate_llm_allocation
    dsimp only
    rw [show sumFracs [(("ETH"), (1:ℚ))] = 1 from by simp [sumFracs]]
    rw [if_pos (by norm_num : (8:ℚ)/10 ≤ 1 ∧ (1:ℚ) ≤ 12/10)]
    simp [hlk, sumFracs]
  · simp [sumFracs]

/-- C9 (amended): the risk-weighted fallback always returns fractions
summing to exactly 1 for a non-empty duplicate-free asset list, with
non-negative fractions for well-formed analyses; the external-suggestion
path returns fractions summing to exactly 1 provided the retained
(listed-asset) fractions have positive sum, and non-negative fractions
whenever the suggestion's are non-negative.  When every listed asset
receives zero suggested weight, the external path returns an allocation
summing to 0. -/
theorem allocation_normalization :
    (∀ (analyses : String → Analysis) (assets : List String),
       assets ≠ [] → assets.Nodup →
       sumFracs (risk_weighted_allocation analyses assets) = 1) ∧
    (∀ (analyses : String → Analysis) (assets : List String),
       assets.Nodup →
       (∀ a ∈ assets, 0 ≤ (analyses a).confidence ∧
         0 ≤ (analyses a).indicators.rsi ∧
         (analyses a).indicators.rsi ≤ 100) →
       ∀ p ∈ risk_weighted_allocation analyses assets, 0 ≤ p.2) ∧
    (∀ (assets : List String) (sug out : List (String × ℚ)),
       assets.Nodup →
       validate_llm_allocation assets sug = some out →
       0 < sumFracs (assets.map (fun a => (a, (lookupFrac a sug).getD 0))) →
       sumFracs out = 1) ∧
    (∀ (assets : List String) (sug out : List (String × ℚ)),
       validate_llm_allocation assets sug = some out →
       (∀ q ∈ sug, 0 ≤ q.2) →
       ∀ p ∈ out, 0 ≤ p.2) := by
  have hfinal_nonneg : ∀ (assets : List String) (sug : List (String × ℚ)),
      (∀ q ∈ sug, 0 ≤ q.2) →
      ∀ p ∈ assets.map (fun a => (a, (lookupFrac a sug).getD 0)), 0 ≤ p.2 := by
    intro assets sug hsug p hp
    obtain ⟨a, _, rfl⟩ := List.mem_map.mp hp
    cases hf : lookupFrac a sug with
    | none => simp [hf]
    | some v =>
        obtain ⟨x, hx, hxv⟩ := lookupFrac_mem a sug v hf
        simp only [hf, Option.getD_some]
        exact hxv ▸ hsug x hx
  refine ⟨?_, ?_, ?_, ?_⟩
  · intro analyses assets hne _
    unfold risk_weighted_allocation
    dsimp only
    split_ifs with ht hlen
    · rw [sumFracs_map_pair, listSum_map_div, div_self (ne_of_gt ht)]
    · rw [sumFracs_map_pair, listSum_map_const]
      have hq : (assets.length : ℚ) ≠ 0 :=
        Nat.cast_ne_zero.mpr (Nat.pos_iff_ne_zero.mp hlen)
      field_simp
    · exact absurd (List.length_pos.mpr hne) hlen
  · intro analyses assets _ hwf p hp
    unfold risk_weighted_allocation at hp
    dsimp only at hp
    split_ifs at hp with ht hlen
    · obtain ⟨a, ha, rfl⟩ := List.mem_map.mp hp
      exact div_nonneg
        (assetScore_nonneg analyses a (hwf a ha).1 (hwf a ha).2.1 (hwf a ha).2.2)
        (le_of_lt ht)
    · obtain ⟨a, _, rfl⟩ := List.mem_map.mp hp
      positivity
    · obtain ⟨a, _, rfl⟩ := List.mem_map.mp hp
      exact le_refl 0
  · intro assets sug out _ hval hpos
    unfold validate_llm_allocation at hval
    dsimp only at hval
    split_ifs at hval with hrange
    simp only [Option.some.injEq] at hval
    rw [← hval, sumFracs_map_div, div_self (ne_of_gt hpos)]
  · intro assets sug out hval hsug p hp
    unfold validate_llm_allocation at hval
    dsimp only at hval
    split_ifs at hval with hrange hs
    · simp only [Option.some.injEq] at hval
      rw [← hval] at hp
      obtain ⟨q, hq, rfl⟩ := List.mem_map.mp hp
      exact div_nonneg (hfinal_nonneg assets sug hsug q hq) (le_of_lt hs)
    · simp only [Option.some.injEq] at hval
      rw [← hval] at hp
      exact hfinal_nonneg assets sug hsug p hp

/-- Witness for C9 (amended) at concrete asset lists, analyses and
suggestions. -/
theorem allocation_normalization_witness :
    sumFracs (risk_weighted_allocation (fun _ => neutralAnalysis)
      [("BTC"), ("ETH")]) = 1 ∧
    (∀ p ∈ risk_weighted_allocation (fun _ => neutralAnalysis)
      [("BTC"), ("ETH")], 0 ≤ p.2) ∧
    sumFracs ((validate_llm_allocation [("BTC")]
      [(("BTC"), 1)]).getD []) = 1 := by
  have h3 := allocation_normalization.2.2.1 [("BTC")] [(("BTC"), 1)]
  have hlk : lookupFrac ("BTC") [(("BTC"), (1:ℚ))] = some 1 := by
    simp [lookupFrac]
  have hv : ∃ out, validate_llm_allocation [("BTC")] [(("BTC"), 1)] =
      some out := by
    unfold validate_llm_allocation
    dsimp only
    rw [show sumFracs [(("BTC"), (1:ℚ))] = 1 from by simp [sumFracs]]
    rw [if_pos (by norm_num : (8:ℚ)/10 ≤ 1 ∧ (1:ℚ) ≤ 12/10)]
    exact ⟨_, rfl⟩
  obtain ⟨out, hval⟩ := hv
  refine ⟨allocation_normalization.1 (fun _ => neutralAnalysis)
      [("BTC"), ("ETH")] (by simp) (by simp),
    allocation_normalization.2.1 (fun _ => neutralAnalysis)
      [("BTC"), ("ETH")] (by simp)
      (by intro a _; norm_num [neutralAnalysis]), ?_⟩
  rw [hval]
  simp only [Option.getD_some]
  refine h3 out (by simp) hval ?_
  simp [sumFracs, hlk]

/-- C6: the Hurst-exponent value stored in the indicator set is the
random-walk default 0.5 whenever the window has fewer than 20 bars or fewer
than 2 scales yield a valid mean rescaled-range value, and otherwise the
least-squares slope of log(mean rescaled range) against log(scale) over the
scales between 10 and min(50, n/2) with non-overlapping segments — i.e. it
coincides with the claim-worded `hurstSpec` on every price series. -/
theorem hurst_default_and_slope :
    ∀ prices : List ℝ, hurst_indicator prices = hurstSpec prices := by
  intro prices
  unfold hurst_indicator calculate_hurst_exponent hurstSpec
  by_cases h : prices.length < 20
  · simp [h]
  · simp only [h, if_false]
    by_cases h2 :
        (hurstRsVals (prices.map Real.log) prices.length).length < 2
    · have hcond : ¬(hurstRsVals (prices.map Real.log) prices.length ≠ [] ∧
          (hurstRsVals (prices.map Real.log) prices.length).length > 1) := by
        rintro ⟨hne, hgt⟩
        have h0 : (hurstRsVals (prices.map Real.log) prices.length).length ≠ 0 :=
          fun hz => hne (List.length_eq_zero.mp hz)
        omega
      simp [hcond, h2]
    · have hcond : hurstRsVals (prices.map Real.log) prices.length ≠ [] ∧
          (hurstRsVals (prices.map Real.log) prices.length).length > 1 := by
        constructor
        · intro he
          rw [he] at h2
          simp at h2
        · omega
      simp [hcond, h2]

/-- Helper: a population standard deviation is nonnegative. -/
theorem npStd_nonneg (xs : List ℝ) : 0 ≤ npStd xs := Real.sqrt_nonneg _

/-- Helper: the Bollinger band width is never negative, since the bands sit
at ±2 standard deviations around the middle band. -/
theorem bands_width_nonneg (closes : List ℝ) :
    0 ≤ (calculate_bollinger_bands closes).upper -
      (calculate_bollinger_bands closes).lower := by
  unfold calculate_bollinger_bands
  dsimp only
  split_ifs with h1 h2
  · linarith [npStd_nonneg (lastN 20 closes)]
  · linarith [npStd_nonneg closes]
  · norm_num

/-- C5 counterexample: a 30-bar window of 29 closes at 1 followed by a
close at 100 computes bands over its last 20 closes whose upper band
(≈ 49.1) lies far below the last close, so `bb_position` exceeds 1: it is
not confined to [0, 1]. -/
theorem bb_position_breakout : 1 < bb_position_of_data breakoutWindow := by
  have hm : npMean (lastN 20 breakoutWindow) = 119/20 := by
    rw [show lastN 20 breakoutWindow =
      [1, 1, 1, 1, 1, 1, 1, 1, 1, 1, 1, 1, 1, 1, 1, 1, 1, 1, 1, (100:ℝ)]
      from rfl]
    norm_num [npMean]
  have hv : npMean ((lastN 20 breakoutWindow).map
      (fun x => (x - 119/20) ^ 2)) = 186219/400 := by
    rw [show lastN 20 breakoutWindow =
      [1, 1, 1, 1, 1, 1, 1, 1, 1, 1, 1, 1, 1, 1, 1, 1, 1, 1, 1, (100:ℝ)]
      from rfl]
    norm_num [npMean]
  have hs : npStd (lastN 20 breakoutWindow) = Real.sqrt (186219/400) := by
    unfold npStd
    rw [show npMean ((lastN 20 breakoutWindow).map
        (fun x => (x - npMean (lastN 20 breakoutWindow)) ^ 2)) =
      186219/400 from by simp only [hm]; exact hv]
  have hs_pos : 0 < npStd (lastN 20 breakoutWindow) := by
    rw [hs]
    exact Real.sqrt_pos.mpr (by norm_num)
  have hs_lt : npStd (lastN 20 breakoutWindow) < 1881/40 := by
    rw [hs]
    exact (Real.sqrt_lt' (by norm_num)).mpr (by norm_num)
  have hlen : breakoutWindow.length ≥ 20 := by norm_num [breakoutWindow]
  have hband : calculate_bollinger_bands breakoutWindow =
      { upper := 119/20 + 2 * npStd (lastN 20 breakoutWindow)
        middle := 119/20
        lower := 119/20 - 2 * npStd (lastN 20 breakoutWindow) } := by
    unfold calculate_bollinger_bands
    dsimp only
    rw [if_pos hlen, if_pos hlen, hm]
  have hlast : breakoutWindow.getLast?.getD 0 = 100 := rfl
  unfold bb_position_of_data
  dsimp only
  rw [hband, hlast]
  dsimp only
  have hwne : 119/20 + 2 * npStd (lastN 20 breakoutWindow) -
      (119/20 - 2 * npStd (lastN 20 breakoutWindow)) ≠ 0 := by
    nlinarith [hs_pos]
  rw [if_pos hwne]
  have h4 : 119/20 + 2 * npStd (lastN 20 breakoutWindow) -
      (119/20 - 2 * npStd (lastN 20 breakoutWindow)) =
      4 * npStd (lastN 20 breakoutWindow) := by ring
  rw [h4]
  rw [one_lt_div (by linarith [hs_pos])]
  linarith [hs_lt]

/-- C5 (amended): `bb_position` equals exactly 0.5 whenever the band width
is zero, and otherwise equals the fractional position of the last close
between the bands, which lies in [0, 1] precisely when the last close lies
between the lower and upper band (and escapes [0, 1] on band breakouts, as
the counterexample shows). -/
theorem bb_position_amended (closes : List ℝ) :
    ((calculate_bollinger_bands closes).upper -
        (calculate_bollinger_bands closes).lower = 0 →
      bb_position_of_data closes = 1/2) ∧
    ((calculate_bollinger_bands closes).upper -
        (calculate_bollinger_bands closes).lower ≠ 0 →
      (calculate_bollinger_bands closes).lower ≤ closes.getLast?.getD 0 →
      closes.getLast?.getD 0 ≤ (calculate_bollinger_bands closes).upper →
      0 ≤ bb_position_of_data closes ∧ bb_position_of_data closes ≤ 1) := by
  constructor
  · intro h0
    unfold bb_position_of_data
    dsimp only
    rw [if_neg (not_not.mpr h0)]
  · intro hne hlo hhi
    have hw : 0 < (calculate_bollinger_bands closes).upper -
        (calculate_bollinger_bands closes).lower :=
      lt_of_le_of_ne (bands_width_nonneg closes) (Ne.symm hne)
    unfold bb_position_of_data
    dsimp only
    rw [if_pos hne]
    constructor
    · exact div_nonneg (by linarith) (le_of_lt hw)
    · rw [div_le_one hw]
      linarith

/-- Witness for C5 (amended) on the alternating window, whose bands are
[0, 4] with the last close 3 inside them. -/
theorem bb_position_amended_witness :
    0 ≤ bb_position_of_data altWindow ∧ bb_position_of_data altWindow ≤ 1 := by
  have hm : npMean altWindow = 2 := by norm_num [npMean, altWindow]
  have hv : npMean (altWindow.map (fun x => (x - 2) ^ 2)) = 1 := by
    norm_num [npMean, altWindow]
  have hs : npStd altWindow = 1 := by
    unfold npStd
    rw [show npMean (altWindow.map
        (fun x => (x - npMean altWindow) ^ 2)) = 1 from by
      simp only [hm]; exact hv]
    exact Real.sqrt_one
  have hband : calculate_bollinger_bands altWindow =
      { upper := 4, middle := 2, lower := 0 } := by
    unfold calculate_bollinger_bands
    dsimp only
    rw [if_pos (by norm_num [altWindow] : altWindow.length ≥ 20),
      if_pos (by norm_num [altWindow] : altWindow.length ≥ 20)]
    rw [show lastN 20 altWindow = altWindow from rfl, hm, hs]
    norm_num
  have hlast : altWindow.getLast?.getD 0 = 3 := rfl
  exact (bb_position_amended altWindow).2
    (by rw [hband]; norm_num)
    (by rw [hband, hlast]; norm_num)
    (by rw [hband, hlast]; norm_num)

end HypeAI
